import Mathlib

/-!
Verification of the core validator engine of Delta-Compute/infinitevibe.

This file is a shallow embedding, in Lean 4, of the parts of the source that
the checked properties talk about:

* `src/tensorflix/config.py` — the configuration constants (allow-list,
  AI-score threshold, max integer weight, signature template);
* `src/tensorflix/services/platform_tracker/data_types.py` — the two metric
  classes `YoutubeVideoMetadata` and `InstagramPostMetadata`;
* `src/tensorflix/protocol.py` — `Performance.get_score` (EMA content score),
  `Submission`, `PeerMetadata` (commit validation, gist resolution);
* `src/tensorflix/models/brief.py` — `BriefCommitMessage.parse`;
* `src/tensorflix/validator.py` — `_refresh_peer_submissions`, the AI-check
  step of `_update_hotkey_performances`, `_calculate_miner_engagement_rates`,
  and the weight-emission tail of `calculate_and_set_weights`;
* `src/enhanced_validator_v2.py` — the zero-sum fallback in its
  `calculate_and_set_weights`.

Python floats are modelled as rationals (`ℚ`), Python ints as `Int`,
Python strings as `String` (operating on their character lists so that every
operation is structurally recursive and kernel-reducible).  MongoDB documents
keyed by hotkey are modelled as association lists.  HTTP effects (the gist
fetch, the AI-detector call) are modelled as explicit `Except`/`Option`
parameters carrying the outcome of the call.
-/

namespace InfiniteVibe

/-! ## String helpers

Python string primitives used by the source, re-implemented structurally over
`List Char` so that concrete instances evaluate inside the kernel:
`str.split(sep)`, `str.split(sep, maxsplit)`, `str.strip()`, `str.lower()`,
substring containment (`in`), slicing `s[-5:]` and `s[:8]`.
-/

/-- Python `list of chunks of s.split(c)`: accumulates the current chunk and
splits at every occurrence of `c`.  `"".split` gives `[""]`, `":".split(":")`
gives `["", ""]`, matching Python. -/
def splitCharAux (c : Char) : List Char → List Char → List (List Char)
  | [], acc => [acc.reverse]
  | x :: xs, acc =>
    if x = c then acc.reverse :: splitCharAux c xs []
    else splitCharAux c xs (x :: acc)

/-- Python `s.split(":")`. -/
def splitColon (s : String) : List String :=
  (splitCharAux ':' s.data []).map (fun l => ⟨l⟩)

/-- Join a list of strings with `":"` between them (inverse of `splitColon`
on a single chunk boundary; used to model Python's `maxsplit` remainder). -/
def joinColon : List String → String
  | [] => ""
  | [x] => x
  | x :: xs => x ++ ":" ++ joinColon xs

/-- Python `s.split(":", 1)`: at most one split, the remainder keeps its
colons. -/
def pySplitColonMax1 (s : String) : List String :=
  match splitColon s with
  | a :: b :: rest => [a, joinColon (b :: rest)]
  | parts => parts

/-- Python `s.split(":", 2)`: at most two splits, the remainder keeps its
colons. -/
def pySplitColonMax2 (s : String) : List String :=
  match splitColon s with
  | a :: b :: c :: rest => [a, b, joinColon (c :: rest)]
  | parts => parts

/-- Python `s.strip()`: drop whitespace from both ends. -/
def trimChars (s : String) : String :=
  ⟨((s.data.dropWhile Char.isWhitespace).reverse.dropWhile Char.isWhitespace).reverse⟩

/-- Python `s.lower()` (ASCII case folding, which is all the source's
signature strings need). -/
def strLower (s : String) : String :=
  ⟨s.data.map Char.toLower⟩

/-- Whether `needle` occurs at the head of `hay`. -/
def charListIsPrefix : List Char → List Char → Bool
  | [], _ => true
  | _ :: _, [] => false
  | a :: as, b :: bs => a = b && charListIsPrefix as bs

/-- Whether `needle` occurs anywhere inside `hay` (Python `needle in hay`). -/
def charListIsSub (needle : List Char) : List Char → Bool
  | [] => needle.isEmpty
  | c :: rest => charListIsPrefix needle (c :: rest) || charListIsSub needle rest

/-- Python `needle in hay` on strings. -/
def containsSubstring (hay needle : String) : Bool :=
  charListIsSub needle.data hay.data

/-- Python `s[-n:]`. -/
def takeLast (n : Nat) (s : String) : String :=
  ⟨s.data.drop (s.data.length - n)⟩

/-- Python `s[:n]`. -/
def takeFirst (n : Nat) (s : String) : String :=
  ⟨s.data.take n⟩

/-- Lexicographic (code-point) comparison on strings, Python's `sorted` order
for the interval keys. -/
def charListLe : List Char → List Char → Bool
  | [], _ => true
  | _ :: _, [] => false
  | a :: as, b :: bs => if a = b then charListLe as bs else decide (a < b)

/-- `a <= b` in Python string order. -/
def strLe (a b : String) : Bool :=
  charListLe a.data b.data

/-! ## Configuration (`src/tensorflix/config.py`)

`Config` defaults: `allowed_platforms = ("youtube/video",)` (line 12),
`max_int_weight = 65_535` (line 15), `ai_generated_score_threshold = 0.3`
(line 17), and `get_signature_post` (lines 34-35).  `Performance.get_score`
has the default smoothing factor `alpha = 0.95` (protocol.py line 27).
-/

def allowedPlatforms : List String := ["youtube/video"]

def aiGeneratedScoreThreshold : ℚ := 3 / 10

def maxIntWeight : ℕ := 65535

def emaAlphaDefault : ℚ := 95 / 100

/-- `Config.get_signature_post` (config.py lines 34-35):
the per-hotkey signature token expected in a caption. -/
def getSignaturePost (hotkey : String) : String :=
  "Made with @infinitevibe.ai on #bittensor --- " ++ takeLast 5 hotkey

/-! ## Metrics (`src/tensorflix/services/platform_tracker/data_types.py`)

The two platform metric classes.  `published_at` is a `datetime` in the
source; no checked property reads it, so it is carried as an epoch integer.
Note that NEITHER class declares a field, property or method named
`owner_follower_count`; `Metric.ownerFollowerCount?` below records that fact,
which is what `hasattr(latest_metric, 'owner_follower_count')` in
`validator.py` line 418 observes.
-/

/-- `YoutubeVideoMetadata` (data_types.py lines 90-120). -/
structure YoutubeVideoMetadata where
  platformName : String := "youtube/video"
  title : String
  caption : String
  thumbnailUrl : String
  publishedAt : Int
  viewCount : Int
  likeCount : Int
  commentCount : Int
  crawlVideoUrl : String := ""
  aiScore : ℚ := 0
  deriving DecidableEq, Repr

/-- `InstagramPostMetadata` (data_types.py lines 24-69). -/
structure InstagramPostMetadata where
  platformName : String := "instagram/reel"
  caption : String
  commentCount : Int
  likeCount : Int
  dimensionHeight : Int
  dimensionWidth : Int
  displayUrl : String
  firstComment : String
  isCommentDisabled : Bool
  ownerUsername : String
  productType : String
  publishedAt : Int
  type : String
  url : String
  videoDuration : Int
  videoPlayCount : Int
  videoViewCount : Int
  crawlVideoUrl : String := ""
  aiScore : ℚ := 0
  deriving DecidableEq, Repr

/-- `Metric = YoutubeVideoMetadata | InstagramPostMetadata`
(protocol.py line 16). -/
inductive Metric where
  | youtube (y : YoutubeVideoMetadata)
  | instagram (i : InstagramPostMetadata)
  deriving DecidableEq, Repr

def Metric.platformName : Metric → String
  | .youtube y => y.platformName
  | .instagram i => i.platformName

def Metric.caption : Metric → String
  | .youtube y => y.caption
  | .instagram i => i.caption

def Metric.aiScore : Metric → ℚ
  | .youtube y => y.aiScore
  | .instagram i => i.aiScore

def Metric.likeCount : Metric → Int
  | .youtube y => y.likeCount
  | .instagram i => i.likeCount

def Metric.commentCount : Metric → Int
  | .youtube y => y.commentCount
  | .instagram i => i.commentCount

/-- `to_scalar`: `view_count` for YouTube (data_types.py lines 116-117),
`video_play_count` for Instagram (lines 65-66). -/
def Metric.toScalar : Metric → ℚ
  | .youtube y => y.viewCount
  | .instagram i => i.videoPlayCount

/-- `check_signature` (data_types.py lines 68-69 and 119-120):
`CONFIG.get_signature_post(hotkey).lower() in self.caption.lower()`. -/
def Metric.checkSignature (m : Metric) (hotkey : String) : Bool :=
  containsSubstring (strLower m.caption) (strLower (getSignaturePost hotkey))

/-- Python `getattr(metric, 'owner_follower_count', …)` target:
neither `YoutubeVideoMetadata` nor `InstagramPostMetadata` declares an
`owner_follower_count` field, so the attribute is absent on every metric. -/
def Metric.ownerFollowerCount? : Metric → Option Int
  | .youtube _ => none
  | .instagram _ => none

/-- Writing `metric.ai_score = …` (validator.py lines 359 and 363). -/
def Metric.setAiScore : Metric → ℚ → Metric
  | .youtube y, v => .youtube { y with aiScore := v }
  | .instagram i, v => .instagram { i with aiScore := v }

/-! ## Submissions and performances (`src/tensorflix/protocol.py`) -/

/-- `Submission` (protocol.py lines 140-154).  `platform` is the pydantic
`Literal["youtube/video", "instagram/reel", "instagram/post"]`, carried here
as the underlying string. -/
structure Submission where
  contentId : String
  platform : String
  directVideoUrl : String
  checkedForAi : Bool := false
  checkedForContentMatching : Bool := false
  containsSubnetTag : Bool := true
  deriving DecidableEq, Repr

/-- `Performance` (protocol.py lines 22-26).  The source's
`platform_metrics_by_interval` is a `dict[str, Metric]` whose keys are
`YYYY-MM-DD-HH-MM` interval strings (unique by construction); the dict is
carried as its key-value pair list. -/
structure Performance where
  hotkey : String
  contentId : String
  platformMetricsByInterval : List (String × Metric)
  deriving DecidableEq, Repr

/-- Insertion step of the key sort (stable, so equal keys keep their
relative order, matching Python's `sorted`). -/
def insertByKey (x : String × Metric) : List (String × Metric) → List (String × Metric)
  | [] => [x]
  | y :: ys => if strLe x.1 y.1 then x :: y :: ys else y :: insertByKey x ys

/-- Python `sorted(self.platform_metrics_by_interval)` paired with the dict
lookup: the entries in ascending key order. -/
def sortByKey (l : List (String × Metric)) : List (String × Metric) :=
  l.foldr insertByKey []

/-! ## EMA content score (`Performance.get_score`, protocol.py lines 27-136)

The loop body per interval (logging elided):

* skip the interval when `metric.platform_name` is outside
  `CONFIG.allowed_platforms` (lines 48-51);
* when `check_signature(hotkey) and ai_score > threshold` (lines 54-60):
  with a previous value, `score = (value - prev) * alpha + score * (1 - alpha)`
  (lines 66-72); with no previous value ("First valid metric"),
  `score = value * alpha + score * (1 - alpha)` (lines 77-80); then
  `prev = value`;
* otherwise reset: `score = 0.0; prev = None` (lines 98-103).
-/

def getScoreLoop (hotkey : String) (alpha : ℚ) :
    List Metric → ℚ → Option ℚ → ℚ
  | [], score, _ => score
  | m :: rest, score, prev =>
    if m.platformName ∈ allowedPlatforms then
      if m.checkSignature hotkey = true ∧ aiGeneratedScoreThreshold < m.aiScore then
        match prev with
        | some pv =>
          getScoreLoop hotkey alpha rest
            ((m.toScalar - pv) * alpha + score * (1 - alpha)) (some m.toScalar)
        | none =>
          getScoreLoop hotkey alpha rest
            (m.toScalar * alpha + score * (1 - alpha)) (some m.toScalar)
      else
        getScoreLoop hotkey alpha rest 0 none
    else
      getScoreLoop hotkey alpha rest score prev

/-- `Performance.get_score(alpha)` (protocol.py lines 27-136): fold the loop
over the intervals in ascending key order, starting from
`score = 0.0, prev = None`. -/
def Performance.getScore (p : Performance) (alpha : ℚ) : ℚ :=
  getScoreLoop p.hotkey alpha ((sortByKey p.platformMetricsByInterval).map Prod.snd) 0 none

/-! ## Brief commit parsing (`src/tensorflix/models/brief.py`) -/

/-- `SubmissionType` (brief.py lines 20-22). -/
inductive SubmissionType where
  | sub1
  | sub2
  deriving DecidableEq, Repr

/-- `BriefCommitMessage` (brief.py lines 128-132). -/
structure BriefCommitMessage where
  briefId : String
  submissionType : SubmissionType
  r2Link : String
  deriving DecidableEq, Repr

/-- `BriefCommitMessage.parse` (brief.py lines 134-154):
`parts = commit_message.strip().split(':', 2)`; `None` unless there are
exactly three parts with the middle one in `['sub_1', 'sub_2']`. -/
def BriefCommitMessage.parse (commitMessage : String) : Option BriefCommitMessage :=
  match pySplitColonMax2 (trimChars commitMessage) with
  | [briefId, subType, r2Link] =>
    if subType = "sub_1" then some ⟨briefId, .sub1, r2Link⟩
    else if subType = "sub_2" then some ⟨briefId, .sub2, r2Link⟩
    else none
  | _ => none

/-- How a commitment string is dispatched by the validator's data model:

* `PeerMetadata._validate_commit` (protocol.py lines 172-177) clears any
  commit without a `:`, so such a peer contributes nothing (invalid);
* a commit recognized by `BriefCommitMessage.parse` is the brief path;
* any other commit with at least one `:` goes down the gist path, where
  `update_submissions` (protocol.py line 181) splits it as
  `username, gist_id = commit.split(":", 1)`.
-/
inductive CommitKind where
  | brief (b : BriefCommitMessage)
  | gist (username gistId : String)
  | invalid
  deriving DecidableEq, Repr

def classifyCommit (commit : String) : CommitKind :=
  match BriefCommitMessage.parse commit with
  | some b => .brief b
  | none =>
    match pySplitColonMax1 commit with
    | [u, g] => .gist u g
    | _ => .invalid

/-! ## Gist resolution (`PeerMetadata.update_submissions`, protocol.py
lines 179-216)

The gist body is processed line by line (`r.text.splitlines()`): empty lines
are skipped, lines that fail `Submission.model_validate_json` are dropped
with a warning, submissions whose `platform` is outside
`CONFIG.allowed_platforms` are dropped, and the rest are appended in order.
A gist line is therefore modelled by its parse outcome.
-/

inductive GistLine where
  | blank
  | malformed
  | record (s : Submission)
  deriving DecidableEq, Repr

def GistLine.record? : GistLine → Option Submission
  | .record s => some s
  | _ => none

/-- The parse loop of `update_submissions` (protocol.py lines 187-204). -/
def parseGistLines (allowed : List String) : List GistLine → List Submission
  | [] => []
  | GistLine.blank :: rest => parseGistLines allowed rest
  | GistLine.malformed :: rest => parseGistLines allowed rest
  | GistLine.record s :: rest =>
    if s.platform ∈ allowed then s :: parseGistLines allowed rest
    else parseGistLines allowed rest

/-- `PeerMetadata` (protocol.py lines 160-177).  The declared fields are
exactly `uid`, `hotkey`, `commit`, `submissions`. -/
structure PeerMetadata where
  uid : Int
  hotkey : String
  commit : String
  submissions : List Submission := []
  deriving DecidableEq, Repr

/-- Any transport failure of the gist fetch (HTTP error, timeout,
`raise_for_status`), all caught by the same `except` clause. -/
inductive GistFetchError where
  | transport
  deriving DecidableEq, Repr

/-- `PeerMetadata.update_submissions` (protocol.py lines 179-216).  The
`try` block covers the commit unpacking (`commit.split(":", 1)` raises
`ValueError` when the commit has no `:`), the HTTP fetch, and the parse
loop; on any exception the handler logs a warning and sets
`self.submissions = []`.  Returns the updated peer together with whether the
warning branch ran. -/
def PeerMetadata.updateSubmissions (p : PeerMetadata)
    (fetch : Except GistFetchError (List GistLine)) : PeerMetadata × Bool :=
  if (splitColon p.commit).length < 2 then
    ({ p with submissions := [] }, true)
  else
    match fetch with
    | .error _ => ({ p with submissions := [] }, true)
    | .ok lines => ({ p with submissions := parseGistLines allowedPlatforms lines }, false)

/-! ## The submissions store (`self._submissions` in validator.py)

The MongoDB collection holds one document per hotkey with the field
`submissions`; it is modelled as an association list in document order.
`delete_many({"hotkey": h})` removes every document whose hotkey is `h`;
`update_one(..., upsert=True)` replaces the first matching document or
appends a new one.
-/

/-- The submissions collection: documents `(hotkey, submissions)`. -/
abbrev SubStore := List (String × List Submission)

/-- `find_one({"hotkey": hk})`, restricted to the `submissions` field. -/
def storeLookup : SubStore → String → Option (List Submission)
  | [], _ => none
  | d :: rest, hk => if d.1 = hk then some d.2 else storeLookup rest hk

/-- `delete_many({"hotkey": hk})` (validator.py line 116). -/
def storeDeleteMany (st : SubStore) (hk : String) : SubStore :=
  st.filter (fun d => !(d.1 == hk))

/-- `update_one({"hotkey": hk}, {"$set": {"submissions": …}}, upsert=True)`
(validator.py lines 119-123). -/
def storeUpsertSubs : SubStore → String → List Submission → SubStore
  | [], hk, subs => [(hk, subs)]
  | d :: rest, hk, subs =>
    if d.1 == hk then (hk, subs) :: rest else d :: storeUpsertSubs rest hk subs

/-- The per-peer summary dict returned by `_refresh_peer_submissions`. -/
structure RefreshSummary where
  hotkey : String
  submissions : ℕ
  action : String
  deriving DecidableEq, Repr

/-- The gist branch of `_refresh_peer_submissions` (validator.py
lines 110-128), i.e. the `else` arm after the brief check: run
`peer.update_submissions()`, add the content ids to the active set, then
either `delete_many` the peer's record (empty list) or upsert the full
list.  Returns the new store, the summary, and the content ids added to
`self._active_content_ids`. -/
def refreshGistBranch (p : PeerMetadata) (st : SubStore)
    (fetch : Except GistFetchError (List GistLine)) :
    SubStore × RefreshSummary × List String :=
  let p2 := (p.updateSubmissions fetch).1
  let ids := p2.submissions.map Submission.contentId
  if p2.submissions.isEmpty then
    (storeDeleteMany st p.hotkey, ⟨takeFirst 8 p.hotkey, 0, "deleted"⟩, ids)
  else
    (storeUpsertSubs st p.hotkey p2.submissions,
      ⟨takeFirst 8 p.hotkey, p2.submissions.length, "updated"⟩, ids)

/-! ## `_refresh_peer_submissions` (validator.py lines 105-128)

Its first statement is `if peer.brief_commit:`.  Python resolves the
attribute `brief_commit` against the instance dict and the class;
`PeerMetadata` declares only the fields `uid`, `hotkey`, `commit`,
`submissions` (and the methods of protocol.py lines 166-216), so the access
raises `AttributeError` before either branch runs.
-/

inductive PyError where
  | attributeError
  deriving DecidableEq, Repr

/-- A value produced by attribute lookup on a `PeerMetadata` instance. -/
inductive PyAttr where
  | int (i : Int)
  | str (s : String)
  | subs (l : List Submission)
  deriving DecidableEq, Repr

/-- Python attribute lookup on a `PeerMetadata` value: the declared fields
(protocol.py lines 161-164) resolve to their values, every other name
raises `AttributeError`. -/
def peerGetattr (p : PeerMetadata) (name : String) : Except PyError PyAttr :=
  if name = "uid" then .ok (.int p.uid)
  else if name = "hotkey" then .ok (.str p.hotkey)
  else if name = "commit" then .ok (.str p.commit)
  else if name = "submissions" then .ok (.subs p.submissions)
  else .error .attributeError

/-- Python truthiness of such a value (`if peer.brief_commit:`). -/
def pyTruthy : PyAttr → Bool
  | .int i => !(i == 0)
  | .str s => !(s == "")
  | .subs l => !l.isEmpty

/-- `_refresh_peer_submissions` (validator.py lines 105-128): evaluate
`peer.brief_commit`; an exception propagates before any store access (the
store is returned unchanged alongside the error).  Were the attribute
present, a truthy value would go down the brief path — which touches only
the brief database, not this store — and a falsy one down the gist branch. -/
def refreshPeerSubmissions (p : PeerMetadata) (st : SubStore)
    (fetch : Except GistFetchError (List GistLine)) :
    SubStore × Except PyError RefreshSummary :=
  match peerGetattr p "brief_commit" with
  | .error e => (st, .error e)
  | .ok attr =>
    if pyTruthy attr then
      (st, .ok ⟨takeFirst 8 p.hotkey, 1, "brief_submission"⟩)
    else
      let r := refreshGistBranch p st fetch
      (r.1, .ok r.2.1)

/-! ## Engagement rates (`_calculate_miner_engagement_rates`, validator.py
lines 390-439)

Active miners are the uids with `metagraph.S[uid] > 0` and no validator
permit.  Per miner, the loop over that miner's performance documents takes
the metric of the most recent interval of each, carries the last positive
`owner_follower_count` seen (checked with `hasattr`, before the validity
check), and accumulates likes, comments and a valid-post count over the
metrics passing `check_signature and ai_score > threshold`.
-/

/-- The metagraph snapshot used by the validator: `hotkeys`, the stake
vector `S`, and `validator_permit`, indexed by uid. -/
structure Metagraph where
  hotkeys : List String
  stakes : List ℚ
  validatorPermit : List Bool
  deriving Repr

/-- The active-miner filter (validator.py lines 396-401):
`S[uid] > 0 and not validator_permit[uid]`. -/
def activeHotkeys (mg : Metagraph) : List String :=
  (mg.hotkeys.zip (mg.stakes.zip mg.validatorPermit)).filterMap
    (fun x => if 0 < x.2.1 ∧ x.2.2 = false then some x.1 else none)

/-- `perf.platform_metrics_by_interval[sorted(keys)[-1]]` (validator.py
line 416), or `None` when the dict is empty (line 413). -/
def latestMetric? (p : Performance) : Option Metric :=
  ((sortByKey p.platformMetricsByInterval).getLast?).map Prod.snd

/-- `is_valid` (validator.py lines 421-424):
`check_signature(hotkey) and ai_score > threshold`. -/
def isValidMetric (hotkey : String) (threshold : ℚ) (m : Metric) : Bool :=
  m.checkSignature hotkey && decide (threshold < m.aiScore)

/-- The running accumulators of the per-miner loop (validator.py line 409):
`total_likes, total_comments, follower_count, valid_posts = 0.0, 0.0, 0, 0`. -/
structure EngAccum where
  totalLikes : ℚ
  totalComments : ℚ
  followerCount : Int
  validPosts : ℕ
  deriving DecidableEq, Repr

/-- One iteration of the per-miner loop (validator.py lines 411-430). -/
def engStep (hotkey : String) (threshold : ℚ) (acc : EngAccum) (p : Performance) :
    EngAccum :=
  match latestMetric? p with
  | none => acc
  | some m =>
    let acc1 :=
      match m.ownerFollowerCount? with
      | some f => if 0 < f then { acc with followerCount := f } else acc
      | none => acc
    if isValidMetric hotkey threshold m then
      { acc1 with
        totalLikes := acc1.totalLikes + (m.likeCount : ℚ)
        totalComments := acc1.totalComments + (m.commentCount : ℚ)
        validPosts := acc1.validPosts + 1 }
    else acc1

/-- The per-miner body of `_calculate_miner_engagement_rates` (validator.py
lines 403-437): rate `((likes + comments) / valid_posts) / follower_count * 100`
when both `valid_posts > 0` and `follower_count > 0`, else `0`; `0` outright
when the miner has no performance documents. -/
def engagementRateFor (hotkey : String) (threshold : ℚ) (perfs : List Performance) : ℚ :=
  if perfs.isEmpty then 0
  else
    let a := perfs.foldl (engStep hotkey threshold) ⟨0, 0, 0, 0⟩
    if 0 < a.validPosts ∧ 0 < a.followerCount then
      ((a.totalLikes + a.totalComments) / (a.validPosts : ℚ)) / (a.followerCount : ℚ) * 100
    else 0

/-- `_calculate_miner_engagement_rates` (validator.py lines 390-439):
one rate per active hotkey; `store hk` stands for
`self._performances.find({"hotkey": hk})`. -/
def calculateMinerEngagementRates (mg : Metagraph)
    (store : String → List Performance) (threshold : ℚ) : List (String × ℚ) :=
  (activeHotkeys mg).map (fun hk => (hk, engagementRateFor hk threshold (store hk)))

/-! ## Specification-side accumulators for the engagement loop

These re-express the loop's four accumulators as list filters and sums; the
theorems below prove the fold equal to them.
-/

def latestMetricsOf (perfs : List Performance) : List Metric :=
  perfs.filterMap latestMetric?

def acceptedLatest (hotkey : String) (threshold : ℚ) (perfs : List Performance) :
    List Metric :=
  (latestMetricsOf perfs).filter (isValidMetric hotkey threshold)

def specLikes (hotkey : String) (threshold : ℚ) (perfs : List Performance) : ℚ :=
  ((acceptedLatest hotkey threshold perfs).map (fun m => (m.likeCount : ℚ))).sum

def specComments (hotkey : String) (threshold : ℚ) (perfs : List Performance) : ℚ :=
  ((acceptedLatest hotkey threshold perfs).map (fun m => (m.commentCount : ℚ))).sum

def specValidPosts (hotkey : String) (threshold : ℚ) (perfs : List Performance) : ℕ :=
  (acceptedLatest hotkey threshold perfs).length

/-- The follower carry, from an arbitrary starting value: the last positive
`owner_follower_count` reported by a most-recent metric, in document order. -/
def specFollowerFrom (f0 : Int) (perfs : List Performance) : Int :=
  (latestMetricsOf perfs).foldl
    (fun f m =>
      match m.ownerFollowerCount? with
      | some v => if 0 < v then v else f
      | none => f) f0

def specFollower (perfs : List Performance) : Int :=
  specFollowerFrom 0 perfs

/-- Whether a performance's most recent interval holds a YouTube metric. -/
def latestIsYoutube (p : Performance) : Bool :=
  match latestMetric? p with
  | some (Metric.youtube _) => true
  | _ => false

/-! ## Eligibility thresholds (`calculate_and_set_weights`, validator.py
lines 600-627)

For a non-empty score population: threshold `0` when the population has
fewer than 4 members, else `np.percentile(scores, 75)` (numpy's default
linear interpolation).  An empty population also gets threshold `0`.
-/

def insertRat (x : ℚ) : List ℚ → List ℚ
  | [] => [x]
  | y :: ys => if x ≤ y then x :: y :: ys else y :: insertRat x ys

def sortRat (l : List ℚ) : List ℚ :=
  l.foldr insertRat []

/-- `np.percentile(scores, 75)` with the default linear interpolation:
with `s` sorted ascending and `n = |s|`, the virtual index is
`h = (n - 1) * 3 / 4`; the result interpolates between `s[⌊h⌋]` and
`s[⌊h⌋ + 1]`. -/
def percentile75 (scores : List ℚ) : ℚ :=
  let s := sortRat scores
  let n := s.length
  if n = 0 then 0
  else
    let l : ℕ := 3 * (n - 1) / 4
    let gamma : ℚ := ((n - 1 : ℕ) : ℚ) * 3 / 4 - (l : ℚ)
    match s[l]?, s[l + 1]? with
    | some a, some b => a + gamma * (b - a)
    | some a, none => a
    | _, _ => 0

/-- The threshold rule (validator.py lines 601-621), identical for the
engagement and brief populations. -/
def eligThreshold (scores : List ℚ) : ℚ :=
  if scores.isEmpty then 0
  else if scores.length < 4 then 0
  else percentile75 scores

/-- `path_b_miners = {hk for hk, score in … if score >= engagement_threshold}`
(validator.py line 627), keeping list order. -/
def pathBMiners (rates : List (String × ℚ)) (threshold : ℚ) : List String :=
  ((rates.filter (fun r => decide (threshold ≤ r.2))).map Prod.fst)

/-! ## Weight emission

`TensorFlixValidator.calculate_and_set_weights` (validator.py lines
674-727): build one weight per uid (`combined_scores.get(hotkey, 0.0)`),
normalize when the sum is positive, convert through
`bt.utils.weight_utils.convert_weights_and_uids_for_emit` (an external
chain-library function, a parameter here), and pass the converted vector to
`set_weights` unchanged — there is no further branch between conversion and
publication.

`EnhancedTensorFlixValidatorV2.calculate_and_set_weights`
(enhanced_validator_v2.py lines 339-345) additionally checks the converted
vector: when its sum is zero it replaces it, giving weight 65535 to each
top-5 hotkey at `metagraph.hotkeys.index(hotkey)`.
-/

/-- `combined_scores.get(hotkey, 0.0)` (validator.py line 678). -/
def combinedScoreOf (combined : List (String × ℚ)) (hk : String) : ℚ :=
  match combined.find? (fun c => c.1 == hk) with
  | some c => c.2
  | none => 0

/-- The uid and weight arrays of validator.py lines 675-678. -/
def buildWeights (hotkeys : List String) (combined : List (String × ℚ)) :
    List ℕ × List ℚ :=
  (List.range hotkeys.length, hotkeys.map (combinedScoreOf combined))

/-- Normalization (validator.py lines 681-683). -/
def normalizeWeights (ws : List ℚ) : List ℚ :=
  if 0 < ws.sum then ws.map (fun w => w / ws.sum) else ws

/-- The emission tail of the main validator (validator.py lines 675-727):
whatever the conversion returns is published verbatim. -/
def mainEmitWeights (hotkeys : List String) (combined : List (String × ℚ))
    (convert : List ℕ → List ℚ → List ℕ × List ℕ) : List ℕ × List ℕ :=
  let uw := buildWeights hotkeys combined
  convert uw.1 (normalizeWeights uw.2)

/-- The zero-sum fallback of enhanced_validator_v2.py lines 339-345, applied
to the converted `(uint_uids, uint_weights)`. -/
def enhancedFallback (hotkeys top5 : List String) (uintUids uintWeights : List ℕ) :
    List ℕ × List ℕ :=
  if uintWeights.sum = 0 then
    (top5.map (fun hk => hotkeys.indexOf hk), top5.map (fun _ => maxIntWeight))
  else (uintUids, uintWeights)

/-! ## The AI-detection step (`_update_hotkey_performances`, validator.py
lines 352-369)

When the in-memory submission has `checked_for_ai == False`, the detector is
called; on success `metric.ai_score` receives the result and the in-memory
flag flips, on failure `metric.ai_score = 0.0` and the in-memory flag stays
`False`.  In BOTH cases the code then issues
`update_one(..., {"$set": {"checked_for_ai": True}}, upsert=True)` — the
persistence write is outside the `try`/`except` and unconditional within the
`if`.  `detectorResult` carries the outcome of the HTTP call
(`None` = any exception).
-/

structure AiCheckOutcome where
  metric : Metric
  sub : Submission
  detectorInvoked : Bool
  persistSetCheckedTrue : Bool
  deriving DecidableEq, Repr

def aiCheckStep (sub : Submission) (m : Metric) (detectorResult : Option ℚ) :
    AiCheckOutcome :=
  if sub.checkedForAi then ⟨m, sub, false, false⟩
  else
    match detectorResult with
    | some v => ⟨m.setAiScore v, { sub with checkedForAi := true }, true, true⟩
    | none => ⟨m.setAiScore 0, sub, true, true⟩

/-- First-occurrence deduplication by `(platform, content_id)` — modelled
from the spec's words ("deduplicated by `(platform, content_id)` preserving
first occurrence", spec §4.2/§8), for comparison with what the source
actually computes. -/
def dedupByKeyAux (seen : List (String × String)) : List Submission → List Submission
  | [] => []
  | s :: rest =>
    if (s.platform, s.contentId) ∈ seen then dedupByKeyAux seen rest
    else s :: dedupByKeyAux ((s.platform, s.contentId) :: seen) rest

def dedupByKey (l : List Submission) : List Submission :=
  dedupByKeyAux [] l

/-! ## Concrete values used by the counterexamples and witnesses -/

def demoHotkey : String := "miner-hotkey-abcde"

/-- A caption containing `get_signature_post(demoHotkey)` verbatim. -/
def demoCaption : String := "Made with @infinitevibe.ai on #bittensor --- abcde"

/-- A YouTube metric with a valid signature for `demoHotkey` and AI score
`0.9` (above the `0.3` threshold), with the given view count. -/
def demoYtMetric (view : Int) : Metric :=
  .youtube
    { title := "demo"
      caption := demoCaption
      thumbnailUrl := "thumb"
      publishedAt := 0
      viewCount := view
      likeCount := 10
      commentCount := 5
      aiScore := 9 / 10 }

/-- One interval, `view_count = 1000`, valid. -/
def demoPerfOneInterval : Performance :=
  ⟨demoHotkey, "v1", [("2024-01-01-00-00", demoYtMetric 1000)]⟩

/-- Spec scenario 1: `view_count = 1000` then `1400`, both valid. -/
def demoPerfTwoIntervals : Performance :=
  ⟨demoHotkey, "v1",
    [("2024-01-01-00-00", demoYtMetric 1000), ("2024-01-01-06-00", demoYtMetric 1400)]⟩

def demoSubA : Submission :=
  { contentId := "v1", platform := "youtube/video", directVideoUrl := "u1" }

/-- Same `(platform, content_id)` as `demoSubA`, different URL. -/
def demoSubB : Submission :=
  { contentId := "v1", platform := "youtube/video", directVideoUrl := "u2" }

def demoSubStore : SubStore := [(demoHotkey, [demoSubA])]

def demoGistPeer : PeerMetadata :=
  { uid := 7, hotkey := demoHotkey, commit := "alice:abcd" }

/-- A conversion outcome in which every integer weight rounds to zero (the
situation the claim's hypothesis describes). -/
def demoConvertZero : List ℕ → List ℚ → List ℕ × List ℕ :=
  fun uids _ => (uids, uids.map (fun _ => 0))

def demoCombined : List (String × ℚ) := [("h1", 0)]

/-! ## Helper lemmas -/

theorem demoYtMetric_checkSignature (v : Int) :
    (demoYtMetric v).checkSignature demoHotkey = true := rfl

theorem demoYtMetric_platformName (v : Int) :
    (demoYtMetric v).platformName = "youtube/video" := rfl

theorem demoYtMetric_aiScore (v : Int) : (demoYtMetric v).aiScore = 9 / 10 := rfl

theorem demoYtMetric_toScalar (v : Int) : (demoYtMetric v).toScalar = (v : ℚ) := rfl

/-- No metric carries an `owner_follower_count` attribute: neither platform
class declares one. -/
theorem ownerFollowerCount_none (m : Metric) : m.ownerFollowerCount? = none := by
  cases m <;> rfl

theorem setAiScore_aiScore (m : Metric) (v : ℚ) : (m.setAiScore v).aiScore = v := by
  cases m <;> rfl

/-- One engagement step never changes the follower accumulator, because the
`hasattr` guard can never fire. -/
theorem engStep_followerCount (hk : String) (th : ℚ) (a : EngAccum) (p : Performance) :
    (engStep hk th a p).followerCount = a.followerCount := by
  unfold engStep
  cases hm : latestMetric? p with
  | none => rfl
  | some m =>
    simp only [ownerFollowerCount_none]
    by_cases hv : isValidMetric hk th m = true <;> simp [hv]

theorem engFold_followerCount (hk : String) (th : ℚ) (perfs : List Performance) :
    ∀ a : EngAccum, (perfs.foldl (engStep hk th) a).followerCount = a.followerCount := by
  induction perfs with
  | nil => intro a; rfl
  | cons p rest ih =>
    intro a
    rw [List.foldl_cons, ih, engStep_followerCount]

theorem specFollowerFrom_eq (perfs : List Performance) :
    ∀ f0 : Int, specFollowerFrom f0 perfs = f0 := by
  unfold specFollowerFrom
  induction latestMetricsOf perfs with
  | nil => intro f0; rfl
  | cons m rest ih =>
    intro f0
    rw [List.foldl_cons, ownerFollowerCount_none, ih]

theorem specFollower_eq_zero (perfs : List Performance) : specFollower perfs = 0 :=
  specFollowerFrom_eq perfs 0

/-- Since the follower accumulator can never become positive, the guard at
validator.py line 432 never passes and every engagement rate is `0`. -/
theorem engagementRateFor_eq_zero (hk : String) (th : ℚ) (perfs : List Performance) :
    engagementRateFor hk th perfs = 0 := by
  unfold engagementRateFor
  by_cases he : perfs.isEmpty = true
  · rw [if_pos he]
  · rw [if_neg he]
    have hcond : ¬(0 < (perfs.foldl (engStep hk th) ⟨0, 0, 0, 0⟩).validPosts
        ∧ 0 < (perfs.foldl (engStep hk th) ⟨0, 0, 0, 0⟩).followerCount) := by
      rintro ⟨-, h2⟩
      rw [engFold_followerCount] at h2
      exact lt_irrefl 0 h2
    rw [if_neg hcond]

/-- The small-population clamp, as a standalone fact shared by the parts of
the threshold claim. -/
theorem eligThreshold_lt_four (scores : List ℚ) (h1 : scores ≠ [])
    (h2 : scores.length < 4) : eligThreshold scores = 0 := by
  cases scores with
  | nil => exact absurd rfl h1
  | cons x xs =>
    simp only [eligThreshold, List.isEmpty_cons, Bool.false_eq_true, if_false]
    rw [if_pos h2]

theorem eligThreshold_ge_four (scores : List ℚ) (h4 : 4 ≤ scores.length) :
    eligThreshold scores = percentile75 scores := by
  cases scores with
  | nil => simp at h4
  | cons x xs =>
    simp only [eligThreshold, List.isEmpty_cons, Bool.false_eq_true, if_false]
    rw [if_neg (by omega)]

/-! ## Claim C1 -/

/-- Claim C1, counterexample.  The claim says a single-valid-interval series
scores `0` and that spec scenario 1 scores `380`; on the code
(`Performance.get_score`, protocol.py lines 77-80) the first valid interval
already emits `value * alpha`, so the single-interval series with
`view_count = 1000` scores `950 ≠ 0` and the scenario
(`1000` then `1400`) scores `427.5 ≠ 380`. -/
theorem ema_single_valid_interval_nonzero :
    Performance.getScore demoPerfOneInterval emaAlphaDefault = 950
    ∧ (950 : ℚ) ≠ 0
    ∧ Performance.getScore demoPerfTwoIntervals emaAlphaDefault = 855 / 2
    ∧ (855 / 2 : ℚ) ≠ 380 := by
  refine ⟨?_, by norm_num, ?_, by norm_num⟩
  · norm_num [Performance.getScore, sortByKey, insertByKey, getScoreLoop,
      demoPerfOneInterval, emaAlphaDefault, aiGeneratedScoreThreshold, allowedPlatforms,
      demoYtMetric_checkSignature, demoYtMetric_platformName, demoYtMetric_aiScore,
      demoYtMetric_toScalar]
  · norm_num [Performance.getScore, sortByKey, insertByKey, getScoreLoop,
      demoPerfTwoIntervals, emaAlphaDefault, aiGeneratedScoreThreshold, allowedPlatforms,
      demoYtMetric_checkSignature, demoYtMetric_platformName, demoYtMetric_aiScore,
      demoYtMetric_toScalar, strLe, charListLe]

/-- Claim C1, amended: the first valid interval after the start (or after a
chain reset) both establishes the baseline and emits score
`alpha * value + (1 - alpha) * score` (protocol.py line 80).  A series with
exactly one valid, allow-listed interval therefore scores `alpha * value`,
and spec scenario 1 scores `0.95 * 400 + 0.05 * 950 = 427.5`. -/
theorem ema_first_valid_interval_emits :
    (∀ (hk k cid : String) (m : Metric),
        m.platformName ∈ allowedPlatforms →
        m.checkSignature hk = true →
        aiGeneratedScoreThreshold < m.aiScore →
        Performance.getScore ⟨hk, cid, [(k, m)]⟩ emaAlphaDefault
          = emaAlphaDefault * m.toScalar)
    ∧ Performance.getScore demoPerfTwoIntervals emaAlphaDefault = 855 / 2 := by
  constructor
  · intro hk k cid m h1 h2 h3
    unfold Performance.getScore
    show getScoreLoop hk emaAlphaDefault ((sortByKey [(k, m)]).map Prod.snd) 0 none
      = emaAlphaDefault * m.toScalar
    have hs : sortByKey [(k, m)] = [(k, m)] := rfl
    rw [hs]
    simp only [List.map_cons, List.map_nil, getScoreLoop, if_pos h1, if_pos (And.intro h2 h3)]
    ring
  · norm_num [Performance.getScore, sortByKey, insertByKey, getScoreLoop,
      demoPerfTwoIntervals, emaAlphaDefault, aiGeneratedScoreThreshold, allowedPlatforms,
      demoYtMetric_checkSignature, demoYtMetric_platformName, demoYtMetric_aiScore,
      demoYtMetric_toScalar, strLe, charListLe]

/-- Claim C1, witness for the amended theorem, at the single-interval input
with `view_count = 1000`. -/
theorem ema_first_valid_interval_emits_witness :
    Performance.getScore ⟨demoHotkey, "v1", [("2024-01-01-00-00", demoYtMetric 1000)]⟩
        emaAlphaDefault
      = emaAlphaDefault * (demoYtMetric 1000).toScalar :=
  ema_first_valid_interval_emits.1 demoHotkey "2024-01-01-00-00" "v1" (demoYtMetric 1000)
    (by decide) (demoYtMetric_checkSignature 1000)
    (by norm_num [demoYtMetric_aiScore, aiGeneratedScoreThreshold])

/-! ## Claim C2 -/

/-- Claim C2 (confirmed): for every `PeerMetadata` value, the attribute
access `peer.brief_commit` at the start of `_refresh_peer_submissions`
(validator.py line 108) raises `AttributeError`, because `PeerMetadata`
declares no such field, property or method; the function therefore ends in
an error before either the brief or the gist path, with the submissions
store untouched. -/
theorem refresh_peer_submissions_attribute_error :
    ∀ (p : PeerMetadata) (st : SubStore) (fetch : Except GistFetchError (List GistLine)),
      refreshPeerSubmissions p st fetch = (st, Except.error PyError.attributeError) := by
  intro p st fetch
  rfl

/-! ## Claim C3 -/

/-- Claim C3, counterexample.  A peer whose gist fetch fails while the store
holds a previous record for its hotkey: after the gist branch of
`_refresh_peer_submissions` runs, the record is gone (deleted by the
`delete_many` of validator.py line 116), so prior persisted state is NOT
left intact. -/
theorem gist_refresh_failure_deletes_record :
    storeLookup demoSubStore demoHotkey = some [demoSubA]
    ∧ (refreshGistBranch demoGistPeer demoSubStore
        (Except.error GistFetchError.transport)).1 = []
    ∧ storeLookup (refreshGistBranch demoGistPeer demoSubStore
        (Except.error GistFetchError.transport)).1 demoHotkey = none := by
  refine ⟨rfl, rfl, rfl⟩

/-- Claim C3, amended: on any transport (or unpack) failure the resolve
yields an empty submission list together with a warning and does not itself
touch the store — but the caller (`_refresh_peer_submissions`, gist branch)
then DELETES the peer's previously persisted submissions record, because the
empty list takes the `delete_many` branch.  (With the source as written this
branch is only reachable once the `brief_commit` access of claim C2 is
fixed.) -/
theorem gist_refresh_failure_empty_and_delete :
    ∀ (p : PeerMetadata) (st : SubStore) (e : GistFetchError),
      (p.updateSubmissions (Except.error e)).1.submissions = []
      ∧ (p.updateSubmissions (Except.error e)).2 = true
      ∧ (refreshGistBranch p st (Except.error e)).1 = storeDeleteMany st p.hotkey := by
  intro p st e
  unfold refreshGistBranch PeerMetadata.updateSubmissions
  by_cases h : (splitColon p.commit).length < 2
  · simp [h]
  · simp [h]

/-! ## Claim C4 -/

/-- Claim C4, counterexample.  In the main validator
(`TensorFlixValidator.calculate_and_set_weights`, validator.py lines
674-727) the converted integer vector is passed to `set_weights` unchanged:
with eligible set `P = {h1}` (non-empty) and a conversion in which every
integer weight is `0`, the published vector is `[0, 0, 0]` — sum `0`, and
`h1`'s uid gets `0`, not `max_int_weight`.  No fallback runs. -/
theorem main_validator_no_zero_sum_fallback :
    (mainEmitWeights ["h1", "h2", "h3"] demoCombined demoConvertZero).2 = [0, 0, 0]
    ∧ (mainEmitWeights ["h1", "h2", "h3"] demoCombined demoConvertZero).2.sum = 0
    ∧ demoCombined.map Prod.fst = ["h1"]
    ∧ demoCombined ≠ []
    ∧ ((mainEmitWeights ["h1", "h2", "h3"] demoCombined demoConvertZero).2)[0]? = some 0
    ∧ (0 : ℕ) ≠ maxIntWeight := by
  refine ⟨rfl, rfl, rfl, by decide, rfl, by decide⟩

/-- Claim C4, amended: the main validator publishes the converted vector
verbatim; the zero-sum fallback exists only in
`EnhancedTensorFlixValidatorV2.calculate_and_set_weights`
(enhanced_validator_v2.py lines 339-345), where a zero integer sum causes
`max_int_weight = 65535` to be assigned to each top-5 growth-score miner. -/
theorem enhanced_zero_sum_fallback_assigns_max :
    ∀ (hotkeys top5 : List String) (uintUids uintWeights : List ℕ),
      uintWeights.sum = 0 →
      (enhancedFallback hotkeys top5 uintUids uintWeights).2
        = top5.map (fun _ => maxIntWeight)
      ∧ ∀ w ∈ (enhancedFallback hotkeys top5 uintUids uintWeights).2, w = maxIntWeight := by
  intro hotkeys top5 uu uw h
  unfold enhancedFallback
  rw [if_pos h]
  refine ⟨rfl, ?_⟩
  intro w hw
  rcases List.mem_map.mp hw with ⟨hk, -, hr⟩
  exact hr.symm

/-- Claim C4, witness for the amended theorem: two hotkeys, top-5 = `[h2]`,
a converted vector summing to zero. -/
theorem enhanced_zero_sum_fallback_assigns_max_witness :
    (enhancedFallback ["h1", "h2"] ["h2"] [] [0, 0]).2
      = ["h2"].map (fun _ => maxIntWeight) :=
  (enhanced_zero_sum_fallback_assigns_max ["h1", "h2"] ["h2"] [] [0, 0] rfl).1

/-! ## Claim C5 -/

/-- Claim C5, counterexample.  Two gist lines with the same
`(platform, content_id)` but different URLs both survive
`update_submissions` (protocol.py lines 187-204): the output is
`[demoSubA, demoSubB]`, which shares a key pair, so it is not deduplicated
(`dedupByKey` would keep only the first). -/
theorem update_submissions_keeps_duplicates :
    parseGistLines allowedPlatforms
        [GistLine.record demoSubA, GistLine.malformed, GistLine.record demoSubB]
      = [demoSubA, demoSubB]
    ∧ demoSubA.platform = demoSubB.platform
    ∧ demoSubA.contentId = demoSubB.contentId
    ∧ demoSubA ≠ demoSubB
    ∧ parseGistLines allowedPlatforms
        [GistLine.record demoSubA, GistLine.malformed, GistLine.record demoSubB]
      ≠ dedupByKey (parseGistLines allowedPlatforms
        [GistLine.record demoSubA, GistLine.malformed, GistLine.record demoSubB]) := by
  refine ⟨by decide, by decide, by decide, by decide, by decide⟩

/-- Claim C5, amended: the resolved list equals the records parsed from the
gist restricted to the platform allow-list, in first-occurrence order,
WITHOUT deduplication — entries sharing `(platform, content_id)` all
remain. -/
theorem update_submissions_filters_without_dedup :
    ∀ (allowed : List String) (lines : List GistLine),
      parseGistLines allowed lines
        = (lines.filterMap GistLine.record?).filter
            (fun s => decide (s.platform ∈ allowed)) := by
  intro allowed lines
  induction lines with
  | nil => rfl
  | cons l rest ih =>
    cases l with
    | blank => simpa [parseGistLines, GistLine.record?] using ih
    | malformed => simpa [parseGistLines, GistLine.record?] using ih
    | record s =>
      by_cases h : s.platform ∈ allowed
      · simp [parseGistLines, GistLine.record?, h, ih]
      · simp [parseGistLines, GistLine.record?, h, ih]

/-! ## Claim C6 -/

/-- Claim C6 (confirmed): for a miner all of whose performances have a
YouTube metric as their most recent interval, the engagement rate is `0` —
`YoutubeVideoMetadata` declares no `owner_follower_count`, so the
`hasattr` guard of validator.py line 418 never fires and `follower_count`
stays `0`. -/
theorem youtube_only_engagement_rate_zero :
    ∀ (hk : String) (th : ℚ) (perfs : List Performance),
      (∀ p ∈ perfs, latestIsYoutube p = true) →
      engagementRateFor hk th perfs = 0 := by
  intro hk th perfs _
  exact engagementRateFor_eq_zero hk th perfs

/-- Claim C6, witness: one performance whose single (hence latest) interval
holds a YouTube metric. -/
theorem youtube_only_engagement_rate_zero_witness :
    engagementRateFor demoHotkey aiGeneratedScoreThreshold [demoPerfOneInterval] = 0 :=
  youtube_only_engagement_rate_zero demoHotkey aiGeneratedScoreThreshold
    [demoPerfOneInterval] (by decide)

/-! ## Claim C7 -/

/-- Claim C7 (confirmed): for every miner, using only the most recent
interval of each performance and accepting it iff
`check_signature(hotkey) and ai_score > threshold`, the engagement rate is
`((likes + comments) / valid_posts) / follower_count * 100` when both
`valid_posts` and `follower_count` are positive and `0` otherwise; and
`_calculate_miner_engagement_rates` assigns exactly this rate to each
active miner (stake `> 0`, no validator permit).  Note the positive-follower
branch is vacuous on this code: no metric class declares
`owner_follower_count`, so `follower_count` is always `0` (cf. claim C6). -/
theorem engagement_rate_formula :
    ∀ (hk : String) (th : ℚ) (perfs : List Performance),
      (engagementRateFor hk th perfs =
        if 0 < specValidPosts hk th perfs ∧ 0 < specFollower perfs then
          ((specLikes hk th perfs + specComments hk th perfs)
              / (specValidPosts hk th perfs : ℚ)) / ((specFollower perfs : ℚ)) * 100
        else 0)
      ∧ ((specValidPosts hk th perfs = 0 ∨ specFollower perfs = 0) →
          engagementRateFor hk th perfs = 0)
      ∧ (∀ (mg : Metagraph) (store : String → List Performance) (r : String × ℚ),
          r ∈ calculateMinerEngagementRates mg store th →
          r.1 ∈ activeHotkeys mg ∧ r.2 = engagementRateFor r.1 th (store r.1)) := by
  intro hk th perfs
  refine ⟨?_, ?_, ?_⟩
  · rw [engagementRateFor_eq_zero, specFollower_eq_zero]
    rw [if_neg]
    rintro ⟨-, h2⟩
    exact lt_irrefl 0 h2
  · intro _
    exact engagementRateFor_eq_zero hk th perfs
  · intro mg store r hr
    rcases List.mem_map.mp hr with ⟨hk0, hmem, heq⟩
    refine ⟨?_, ?_⟩
    · rw [← heq]
      exact hmem
    · rw [← heq]

/-- Claim C7, witness: a miner with no performance documents has rate `0`
(the `valid_posts == 0` guard). -/
theorem engagement_rate_formula_witness :
    engagementRateFor demoHotkey aiGeneratedScoreThreshold [] = 0 :=
  (engagement_rate_formula demoHotkey aiGeneratedScoreThreshold []).2.1 (Or.inl rfl)

/-! ## Claim C8 -/

/-- Claim C8 (confirmed): for a non-empty score population the eligibility
threshold is `0` when the population has fewer than 4 members and otherwise
equals its 75th percentile (validator.py lines 600-621, same rule for both
paths); with exactly 3 engagement scores the threshold is `0` and every
(non-negative) score passes path B. -/
theorem eligibility_threshold_small_population :
    (∀ scores : List ℚ, scores ≠ [] → scores.length < 4 → eligThreshold scores = 0)
    ∧ (∀ scores : List ℚ, 4 ≤ scores.length → eligThreshold scores = percentile75 scores)
    ∧ (∀ rates : List (String × ℚ), rates.length = 3 → (∀ r ∈ rates, 0 ≤ r.2) →
        pathBMiners rates (eligThreshold (rates.map Prod.snd)) = rates.map Prod.fst) := by
  refine ⟨eligThreshold_lt_four, eligThreshold_ge_four, ?_⟩
  intro rates h3 hnn
  have hm : (rates.map Prod.snd).length = 3 := by rw [List.length_map, h3]
  have hne : rates.map Prod.snd ≠ [] := by
    intro h0
    rw [h0] at hm
    simp at hm
  have ht := eligThreshold_lt_four (rates.map Prod.snd) hne (by omega)
  unfold pathBMiners
  rw [ht]
  have hf : rates.filter (fun r => decide ((0 : ℚ) ≤ r.2)) = rates :=
    List.filter_eq_self.mpr (fun a ha => by simpa using hnn a ha)
  rw [hf]

/-- Claim C8, witness: three engagement scores `1, 2, 3` — threshold `0`,
all three miners pass path B. -/
theorem eligibility_threshold_small_population_witness :
    eligThreshold [1, 2, 3] = 0
    ∧ pathBMiners [("a", 1), ("b", 2), ("c", 3)]
        (eligThreshold ([(("a" : String), (1 : ℚ)), ("b", 2), ("c", 3)].map Prod.snd))
      = [(("a" : String), (1 : ℚ)), ("b", 2), ("c", 3)].map Prod.fst := by
  refine ⟨eligibility_threshold_small_population.1 [1, 2, 3] (by decide) (by decide),
    eligibility_threshold_small_population.2.2 [("a", 1), ("b", 2), ("c", 3)] rfl ?_⟩
  intro r hr
  simp only [List.mem_cons, List.not_mem_nil, or_false] at hr
  rcases hr with h | h | h <;> subst h <;> norm_num

/-! ## Claim C9 -/

/-- Claim C9, counterexample.  A submission not yet checked, and a FAILED
detector call (`None`): the code still issues the persistence update
setting `checked_for_ai` to true (validator.py lines 365-369 sit outside
the `try`), while the in-memory flag stays false and `ai_score` is zeroed —
so the flag does not track detector success and the failed check is not
left pending in the store. -/
theorem ai_check_persists_flag_on_failure :
    (aiCheckStep demoSubA (demoYtMetric 1000) none).persistSetCheckedTrue = true
    ∧ (aiCheckStep demoSubA (demoYtMetric 1000) none).detectorInvoked = true
    ∧ (aiCheckStep demoSubA (demoYtMetric 1000) none).sub.checkedForAi = false
    ∧ (aiCheckStep demoSubA (demoYtMetric 1000) none).metric.aiScore = 0 := by
  refine ⟨rfl, rfl, rfl, rfl⟩

/-- Claim C9, amended: the detector is invoked iff the submission's
`checked_for_ai` flag is false, and after the attempt the persistence update
setting `checked_for_ai` to true is issued whether or not the call
succeeded; on failure `ai_score` becomes `0.0` and only the in-memory flag
stays false, on success `ai_score` receives the result and the in-memory
flag flips. -/
theorem ai_check_flag_semantics :
    ∀ (sub : Submission) (m : Metric) (d : Option ℚ),
      ((aiCheckStep sub m d).detectorInvoked = true ↔ sub.checkedForAi = false)
      ∧ ((aiCheckStep sub m d).persistSetCheckedTrue = true ↔ sub.checkedForAi = false)
      ∧ (sub.checkedForAi = false → d = none →
          (aiCheckStep sub m d).metric.aiScore = 0
          ∧ (aiCheckStep sub m d).sub.checkedForAi = false)
      ∧ (sub.checkedForAi = false → ∀ v, d = some v →
          (aiCheckStep sub m d).metric.aiScore = v
          ∧ (aiCheckStep sub m d).sub.checkedForAi = true) := by
  intro sub m d
  by_cases h : sub.checkedForAi = true
  · cases d <;> simp [aiCheckStep, h]
  · have h2 : sub.checkedForAi = false := by simpa using h
    cases d <;> simp [aiCheckStep, h2, setAiScore_aiScore]

/-- Claim C9, witness for the amended theorem, at the failed-call input. -/
theorem ai_check_flag_semantics_witness :
    (aiCheckStep demoSubA (demoYtMetric 1000) none).metric.aiScore = 0
    ∧ (aiCheckStep demoSubA (demoYtMetric 1000) none).sub.checkedForAi = false :=
  (ai_check_flag_semantics demoSubA (demoYtMetric 1000) none).2.2.1 rfl rfl

/-! ## Claim C10 -/

/-- Claim C10, counterexample.  The commit `"b1:sub_1:https://r2/x:y"`
contains FOUR `:` separators, yet `BriefCommitMessage.parse` accepts it —
`split(':', 2)` keeps the remainder intact — so "exactly two separators" is
not the recognition rule. -/
theorem brief_commit_three_colons_accepted :
    classifyCommit "b1:sub_1:https://r2/x:y"
      = CommitKind.brief ⟨"b1", SubmissionType.sub1, "https://r2/x:y"⟩
    ∧ ("b1:sub_1:https://r2/x:y").data.count ':' = 4
    ∧ (4 : ℕ) ≠ 2 := by
  refine ⟨by decide, by decide, by decide⟩

/-- Claim C10, amended: a commitment is recognized as a BriefCommit iff its
trimmed form splits on `:` into AT LEAST three parts (two or more
separators) with the token between the first and second `:` in
`{sub_1, sub_2}` (the remainder, colons included, becomes the artifact
url); any other commitment containing at least one `:` is treated as a
gist pointer split at the first `:`; a commitment without `:` is invalid. -/
theorem commit_classification_characterization :
    ∀ s : String,
      ((BriefCommitMessage.parse s).isSome = true ↔
        (3 ≤ (splitColon (trimChars s)).length ∧
          ((splitColon (trimChars s))[1]? = some "sub_1"
            ∨ (splitColon (trimChars s))[1]? = some "sub_2")))
      ∧ (∀ b, BriefCommitMessage.parse s = some b →
          classifyCommit s = CommitKind.brief b)
      ∧ (BriefCommitMessage.parse s = none → 2 ≤ (splitColon s).length →
          classifyCommit s
            = CommitKind.gist ((splitColon s).headD "") (joinColon (splitColon s).tail))
      ∧ (BriefCommitMessage.parse s = none → (splitColon s).length ≤ 1 →
          classifyCommit s = CommitKind.invalid) := by
  intro s
  refine ⟨?_, ?_, ?_, ?_⟩
  · cases h : splitColon (trimChars s) with
    | nil => simp [BriefCommitMessage.parse, pySplitColonMax2, h]
    | cons a t =>
      cases t with
      | nil => simp [BriefCommitMessage.parse, pySplitColonMax2, h]
      | cons b t2 =>
        cases t2 with
        | nil => simp [BriefCommitMessage.parse, pySplitColonMax2, h]
        | cons c rest =>
          by_cases hb1 : b = "sub_1"
          · simp [BriefCommitMessage.parse, pySplitColonMax2, h, hb1]
          · by_cases hb2 : b = "sub_2"
            · simp [BriefCommitMessage.parse, pySplitColonMax2, h, hb1, hb2]
            · simp [BriefCommitMessage.parse, pySplitColonMax2, h, hb1, hb2]
  · intro b hb
    unfold classifyCommit
    rw [hb]
  · intro hn h2
    unfold classifyCommit pySplitColonMax1
    rw [hn]
    cases h : splitColon s with
    | nil =>
      rw [h] at h2
      simp at h2
    | cons a t =>
      cases t with
      | nil =>
        rw [h] at h2
        simp only [List.length_cons, List.length_nil] at h2
        omega
      | cons b r => simp [h]
  · intro hn h1
    unfold classifyCommit pySplitColonMax1
    rw [hn]
    cases h : splitColon s with
    | nil => simp [h]
    | cons a t =>
      cases t with
      | nil => simp [h]
      | cons b r =>
        rw [h] at h1
        simp only [List.length_cons] at h1
        omega

/-- Claim C10, witness for the amended theorem: `"brief9:sub_2:url"` is
recognized as a BriefCommit. -/
theorem commit_classification_characterization_witness :
    (BriefCommitMessage.parse "brief9:sub_2:url").isSome = true :=
  (commit_classification_characterization "brief9:sub_2:url").1.mpr
    ⟨by decide, Or.inr (by decide)⟩

end InfiniteVibe
